import Mathlib

/-! Shallow embedding of the session-orchestration and cost-accounting core of
the rental-property CLI chatbot: the CostTracker class (src/cost-tracker.js),
the LLMService class (src/llm-service.js) and the RentalPropertyChatbot class
(src/chatbot.js).

Modelling conventions, used throughout:
- monetary amounts are exact rationals, token and character counts naturals;
- JavaScript strings are Lean strings; the character-level operations
  substring, trim and length are modelled on the underlying character list;
- wall-clock readings (differences of Date.now) and timestamps (the result of
  calling toISOString on a Date) are nondeterministic inputs and enter the
  definitions as explicit parameters;
- the one external effect, the OpenAI chat-completions call, enters as an
  explicit CompletionOutcome argument: either the response object (answer
  content plus optional usage counters) or a thrown transport, auth or
  timeout error with its message;
- console output, chalk colors and the thinking animation are write-only
  decoration with no data flow back into the core and are not modelled. -/

/-- The JavaScript call s.substring(0, n): the first n characters of s
(all of s when s is shorter). -/
def jsSubstringTo (s : String) (n : Nat) : String :=
  ⟨s.data.take n⟩

/-- JavaScript String.prototype.trim: whitespace stripped from both ends of
the string. -/
def jsTrim (s : String) : String :=
  ⟨((s.data.dropWhile Char.isWhitespace).reverse.dropWhile Char.isWhitespace).reverse⟩

/-- The usage object of an OpenAI chat-completion response: prompt, completion
and total token counters. -/
structure Usage where
  prompt_tokens : Nat
  completion_tokens : Nat
  total_tokens : Nat
deriving DecidableEq

/-- The per-token rate table, cost-tracker.js lines 18-21: GPT-3.5-turbo
pricing, 0.0015 dollars per 1K input tokens and 0.002 dollars per 1K output
tokens. -/
structure Pricing where
  input : ℚ
  output : ℚ
deriving DecidableEq

/-- The object calculateQueryCost returns (cost-tracker.js lines 32-40).  The
formattedCost field, a fixed-decimal rendering of totalCost, is presentation
only and carries no further data, so it is not modelled. -/
structure QueryCost where
  inputTokens : Nat
  outputTokens : Nat
  totalTokens : Nat
  inputCost : ℚ
  outputCost : ℚ
  totalCost : ℚ
deriving DecidableEq

/-- The running totalTokens aggregate of a CostTracker (cost-tracker.js
lines 11-15). -/
structure TokenTotals where
  input : Nat
  output : Nat
  total : Nat
deriving DecidableEq

/-- One element of the sessions log, built in trackQuery (cost-tracker.js
lines 67-72): the truncated question preview, the response latency in
milliseconds, the cost object and the timestamp string. -/
structure SessionEntry where
  question : String
  responseTime : Nat
  tokens : QueryCost
  timestamp : String
deriving DecidableEq

/-- The mutable state of a CostTracker instance (cost-tracker.js
lines 8-22). -/
structure CostTracker where
  sessions : List SessionEntry
  totalCost : ℚ
  totalTokens : TokenTotals
deriving DecidableEq

/-- The constructor state of CostTracker: empty log, zero totals. -/
def CostTracker.init : CostTracker :=
  { sessions := [], totalCost := 0, totalTokens := { input := 0, output := 0, total := 0 } }

/-- cost-tracker.js lines 18-21. -/
def CostTracker.pricing : Pricing :=
  { input := 0.0015 / 1000, output := 0.002 / 1000 }

/-- CostTracker.calculateQueryCost (cost-tracker.js lines 27-41): linear
token pricing with no rounding of the stored values. -/
def CostTracker.calculateQueryCost (inputTokens outputTokens : Nat) : QueryCost :=
  let inputCost : ℚ := inputTokens * CostTracker.pricing.input
  let outputCost : ℚ := outputTokens * CostTracker.pricing.output
  let totalCost : ℚ := inputCost + outputCost
  { inputTokens := inputTokens
    outputTokens := outputTokens
    totalTokens := inputTokens + outputTokens
    inputCost := inputCost
    outputCost := outputCost
    totalCost := totalCost }

/-- What trackQuery reads off the response object passed to it: the optional
usage counters (response.usage) and the optional answer text
(response.answer). -/
structure TrackedResponse where
  usage : Option Usage
  answer : Option String
deriving DecidableEq

/-- CostTracker.trackQuery (cost-tracker.js lines 46-81).  Reads the usage
counters, falling back to zero when absent; when both counters are zero it
estimates both counts at roughly 4 characters per token (Math.ceil(n / 4) on
a natural numerator is (n + 3) / 4 in natural division; theorem
natCeilDivFour below identifies it with the rational ceiling).  It then
prices the counts, appends a log entry and updates the running totals,
returning the cost object.  The now argument stands for the timestamp taken
inside the method. -/
def CostTracker.trackQuery (t : CostTracker) (question : String)
    (response : TrackedResponse) (responseTime : Nat) (now : String) :
    CostTracker × QueryCost :=
  let usagePrompt := (response.usage.map Usage.prompt_tokens).getD 0
  let usageCompletion := (response.usage.map Usage.completion_tokens).getD 0
  let counts : Nat × Nat :=
    if usagePrompt = 0 ∧ usageCompletion = 0 then
      ((question.length + 1000 + 3) / 4,
       (((response.answer.map String.length).getD 0) + 3) / 4)
    else
      (usagePrompt, usageCompletion)
  let cost := CostTracker.calculateQueryCost counts.1 counts.2
  let entry : SessionEntry :=
    { question := jsSubstringTo question 50 ++ (if question.length > 50 then "..." else "")
      responseTime := responseTime
      tokens := cost
      timestamp := now }
  ({ sessions := t.sessions ++ [entry]
     totalCost := t.totalCost + cost.totalCost
     totalTokens :=
       { input := t.totalTokens.input + counts.1
         output := t.totalTokens.output + counts.2
         total := t.totalTokens.total + cost.totalTokens } },
   cost)

/-- The object getSessionStats returns (cost-tracker.js lines 86-96).  The
formattedTotalCost field is presentation only and is not modelled. -/
structure SessionStats where
  totalQueries : Nat
  totalCost : ℚ
  totalTokens : TokenTotals
  averageCostPerQuery : ℚ
  averageTokensPerQuery : ℚ
  sessions : List SessionEntry
deriving DecidableEq

/-- CostTracker.getSessionStats (cost-tracker.js lines 86-96): the averages
divide only under the guard that the log is non-empty, and are 0 otherwise. -/
def CostTracker.getSessionStats (t : CostTracker) : SessionStats :=
  { totalQueries := t.sessions.length
    totalCost := t.totalCost
    totalTokens := t.totalTokens
    averageCostPerQuery :=
      if t.sessions.length > 0 then t.totalCost / t.sessions.length else 0
    averageTokensPerQuery :=
      if t.sessions.length > 0 then (t.totalTokens.total : ℚ) / t.sessions.length else 0
    sessions := t.sessions }

/-- One property record as the LLM service consumes it (the fields
interpolated by generateSystemPrompt, llm-service.js lines 43-50). -/
structure Property where
  index : Nat
  title : String
  location : String
  priceDisplay : String
  description : String
  facilitiesText : String
  address : String
deriving DecidableEq

/-- The options object of an LLMService (llm-service.js lines 14-22), kept to
the fields the service consults again after construction.  The stream flag is
constant false and the completions call restates it literally, so it carries
no information. -/
structure LLMOptions where
  model : String
  temperature : ℚ
  maxTokens : Nat
  responseTimeout : Nat
  cacheSystemPrompt : Bool
deriving DecidableEq

/-- The mutable state of an LLMService instance: its options, the lazily
populated system-prompt cache (llm-service.js line 25, null at construction)
and the loaded property list (line 27, filled by setProperties). -/
structure LLMService where
  options : LLMOptions
  cachedSystemPrompt : Option String
  properties : List Property
deriving DecidableEq

/-- JavaScript truthiness of the cachedSystemPrompt field: null and the empty
string are falsy, every other string truthy. -/
def truthy : Option String → Bool
  | none => false
  | some s => !(s == "")

/-- The per-property block of the prompt template (llm-service.js
lines 44-49). -/
def propertyBlock (p : Property) : String :=
  "Property " ++ toString p.index ++ ": " ++ p.title ++
  "\n- Location: " ++ p.location ++
  "\n- Price: " ++ p.priceDisplay ++
  "\n- Description: " ++ p.description ++
  "\n- Facilities: " ++ p.facilitiesText ++
  "\n- Address: " ++ p.address

/-- The opening of the prompt template up to the interpolated property data
(llm-service.js lines 52-55). -/
def promptHeader (n : Nat) : String :=
  "You are a helpful and knowledgeable rental property assistant. You have access to " ++
  toString n ++
  " rental properties and can answer questions about them quickly and accurately.\n\nPROPERTY DATABASE:\n"

/-- The instruction block of the prompt template after the property data
(llm-service.js lines 57-77). -/
def promptInstructions (n : Nat) : String :=
  "\n\nINSTRUCTIONS:\n- Answer questions about rental properties using ONLY the data provided above\n- Be concise but informative in your responses\n- Always mention specific property details (price, location, facilities) when relevant\n- If asked about properties not in the database, politely explain you only have information about the " ++
  toString n ++
  " properties listed\n- For location-based queries, suggest the most relevant properties\n- For budget-based queries, recommend properties within the specified price range\n- For facility-based queries (bedrooms, bathrooms, parking), match user needs to property facilities\n- Always format prices as shown (e.g., $123/night)\n- Be helpful and enthusiastic about the properties\n\nRESPONSE FORMAT:\n- Keep responses under 200 words for quick reading and faster generation\n- Use bullet points for multiple property recommendations\n- Include property names, locations, and prices\n- Mention key facilities that match the user\x27s needs\n- Be concise but helpful - prioritize speed and clarity\n- Write in a friendly, conversational tone\n- Use encouraging language and show genuine enthusiasm for helping\n- Add personal touches like \"Perfect for you!\" or \"You\x27ll love this!\"\n- Show empathy if no exact matches found: \"I understand you\x27re looking for...\""

/-- LLMService.generateSystemPrompt (llm-service.js lines 42-78): the
per-property blocks joined by blank lines, wrapped in the fixed template. -/
def generateSystemPrompt (properties : List Property) : String :=
  promptHeader properties.length ++
  String.intercalate "\n\n" (properties.map propertyBlock) ++
  promptInstructions properties.length

/-- The system prompt answerQuestion passes to the completions call
(llm-service.js lines 92-94): the cached string when caching is on and the
cache is truthy, a freshly generated prompt otherwise. -/
def LLMService.resolvedPrompt (svc : LLMService) : String :=
  if svc.options.cacheSystemPrompt && truthy svc.cachedSystemPrompt then
    svc.cachedSystemPrompt.getD ""
  else
    generateSystemPrompt svc.properties

/-- The cache write of answerQuestion (llm-service.js lines 97-99): the
resolved prompt is stored when caching is on and the cache was not yet
truthy; otherwise the state is unchanged. -/
def LLMService.cacheAfter (svc : LLMService) : LLMService :=
  if svc.options.cacheSystemPrompt && !truthy svc.cachedSystemPrompt then
    { svc with cachedSystemPrompt := some svc.resolvedPrompt }
  else
    svc

/-- What the awaited completions call can come to: the response object, with
its optional first-choice message content and optional usage counters, or a
thrown transport, auth or timeout error carrying a message. -/
inductive CompletionOutcome where
  | success (content : Option String) (usage : Option Usage)
  | failure (message : String)
deriving DecidableEq

/-- The object answerQuestion resolves to (llm-service.js lines 136-143 on
success, lines 149-154 on failure).  tokensUsed, usage and model are absent
from the failure object and error is absent from the success object, so all
four are options. -/
structure AnswerResult where
  question : String
  answer : String
  tokensUsed : Option Nat
  usage : Option Usage
  model : Option String
  error : Option String
  timestamp : String
deriving DecidableEq

/-- The user-facing apology of the answerQuestion catch block
(llm-service.js line 151). -/
def llmApology : String :=
  "I apologize, but I\x27m having trouble processing your question right now. Please try asking about specific properties, locations, price ranges, or facilities you\x27re looking for."

/-- The message thrown when no property data is loaded (llm-service.js
line 88). -/
def noDataMessage : String :=
  "No property data loaded. Please load properties first."

/-- The message thrown when the completion resolves without answer text
(llm-service.js line 121). -/
def noAnswerMessage : String :=
  "No response received from AI"

/-- The fallback object the catch block of answerQuestion returns
(llm-service.js lines 149-154). -/
def llmFailureResult (userQuestion message now : String) : AnswerResult :=
  { question := userQuestion
    answer := llmApology
    tokensUsed := none
    usage := none
    model := none
    error := some message
    timestamp := now }

/-- LLMService.answerQuestion (llm-service.js lines 83-156).  Every throw
inside the try block lands in the catch block, which returns the fallback
object, so the operation is total.  Besides the new service state and the
result object, the embedding also returns the system prompt the completions
call observed (none when no call was made, that is when the property guard
threw first).  The now argument stands for the timestamps taken inside the
method. -/
def LLMService.answerQuestion (svc : LLMService) (userQuestion : String)
    (outcome : CompletionOutcome) (now : String) :
    LLMService × AnswerResult × Option String :=
  if svc.properties.length = 0 then
    (svc, llmFailureResult userQuestion noDataMessage now, none)
  else
    let systemPrompt := svc.resolvedPrompt
    let svc1 := svc.cacheAfter
    match outcome with
    | .failure message =>
        (svc1, llmFailureResult userQuestion message now, some systemPrompt)
    | .success content usage =>
        match content with
        | none =>
            (svc1, llmFailureResult userQuestion noAnswerMessage now, some systemPrompt)
        | some answer =>
            if answer = "" then
              (svc1, llmFailureResult userQuestion noAnswerMessage now, some systemPrompt)
            else
              (svc1,
               { question := userQuestion
                 answer := jsTrim answer
                 tokensUsed := some ((usage.map Usage.total_tokens).getD 0)
                 usage := some (usage.getD { prompt_tokens := 0, completion_tokens := 0, total_tokens := 0 })
                 model := some svc.options.model
                 error := none
                 timestamp := now },
               some systemPrompt)

/-- The configuration fields of RentalPropertyChatbot (chatbot.js
lines 28-51) that askQuestion consults.  enableAnimations and
showPerformanceMetrics only gate console decoration; responseTimeout is
parsed at line 41 and handed to the LLMService constructor but never read
again anywhere. -/
structure ChatbotConfig where
  responseTimeout : Nat
  enableCostTracking : Bool
  enableAnimations : Bool
  showPerformanceMetrics : Bool
deriving DecidableEq

/-- The mutable state of a RentalPropertyChatbot instance (chatbot.js
lines 19-51). -/
structure RentalPropertyChatbot where
  isInitialized : Bool
  questionCount : Nat
  costTracker : CostTracker
  llmService : LLMService
  config : ChatbotConfig
deriving DecidableEq

/-- The Result object askQuestion resolves to: the spread of the LLM result
plus responseTime, questionNumber and the cost field (chatbot.js
lines 170-175; the catch object of lines 185-191 has no cost key, which the
none value also covers). -/
structure AskResult where
  question : String
  answer : String
  tokensUsed : Option Nat
  usage : Option Usage
  model : Option String
  error : Option String
  timestamp : String
  responseTime : Nat
  questionNumber : Nat
  cost : Option QueryCost
deriving DecidableEq

/-- The message of the guard throw at chatbot.js line 138. -/
def notInitializedMessage : String :=
  "Chatbot not initialized. Please call initialize() first."

/-- The spread building the Result (chatbot.js lines 170-175). -/
def mkAskResult (r : AnswerResult) (responseTime questionNumber : Nat)
    (cost : Option QueryCost) : AskResult :=
  { question := r.question
    answer := r.answer
    tokensUsed := r.tokensUsed
    usage := r.usage
    model := r.model
    error := r.error
    timestamp := r.timestamp
    responseTime := responseTime
    questionNumber := questionNumber
    cost := cost }

/-- RentalPropertyChatbot.askQuestion (chatbot.js lines 136-193).  The
uninitialized guard rejects (models the throw at line 138).  Otherwise the
question counter is incremented, the LLM service is consulted, and, when
cost tracking is enabled, the response is handed to
CostTracker.trackQuery and the returned cost object attached to the Result.
The modelled answerQuestion and trackQuery are total, so the catch block of
lines 177-192 is unreachable and has no image in the embedding.  The
responseTime argument stands for the measured elapsed milliseconds and now
for the timestamps taken inside the call. -/
def RentalPropertyChatbot.askQuestion (bot : RentalPropertyChatbot)
    (question : String) (outcome : CompletionOutcome) (now : String)
    (responseTime : Nat) :
    Except String (RentalPropertyChatbot × AskResult) :=
  if !bot.isInitialized then
    .error notInitializedMessage
  else
    let bot1 := { bot with questionCount := bot.questionCount + 1 }
    let step := bot1.llmService.answerQuestion question outcome now
    let bot2 := { bot1 with llmService := step.1 }
    let response := step.2.1
    if bot2.config.enableCostTracking then
      let tracked := bot2.costTracker.trackQuery question
        { usage := response.usage, answer := some response.answer } responseTime now
      .ok ({ bot2 with costTracker := tracked.1 },
           mkAskResult response responseTime bot2.questionCount (some tracked.2))
    else
      .ok (bot2, mkAskResult response responseTime bot2.questionCount none)

/-- A concrete property record, used to instantiate witnesses and
counterexamples. -/
def propW : Property :=
  { index := 1
    title := "Rio Beach House"
    location := "Rio de Janeiro, Brazil"
    priceDisplay := "$18/night"
    description := "A breezy beach house steps from the sand"
    facilitiesText := "2 bedrooms, 1 bathroom, parking"
    address := "Avenida Atlantica 1702" }

/-- A concrete LLM service with one property loaded, system-prompt caching
enabled and an empty cache, as after initialization. -/
def svcW : LLMService :=
  { options :=
      { model := "gpt-3.5-turbo"
        temperature := 0.2
        maxTokens := 400
        responseTimeout := 30000
        cacheSystemPrompt := true }
    cachedSystemPrompt := none
    properties := [propW] }

/-- A concrete initialized chatbot with cost tracking enabled (the default
configuration) and a fresh cost tracker. -/
def botW : RentalPropertyChatbot :=
  { isInitialized := true
    questionCount := 0
    costTracker := CostTracker.init
    llmService := svcW
    config :=
      { responseTimeout := 30000
        enableCostTracking := true
        enableAnimations := false
        showPerformanceMetrics := false } }

/-- Whether a completion attempt fails in the sense of the spec: the awaited
call threw (transport, auth or timeout error), or it resolved without answer
text (absent or empty first-choice content). -/
def CompletionOutcome.fails : CompletionOutcome → Bool
  | .failure _ => true
  | .success none _ => true
  | .success (some a) _ => a == ""

/-- The inputs of one trackQuery call, for iterating a whole session. -/
structure QueryEvent where
  question : String
  response : TrackedResponse
  responseTime : Nat
  now : String

/-- A session of cost-tracked queries: trackQuery folded over a list of
query events. -/
def trackAll (t : CostTracker) : List QueryEvent → CostTracker
  | [] => t
  | ev :: evs => trackAll (t.trackQuery ev.question ev.response ev.responseTime ev.now).1 evs

/-- The same service with only the responseTimeout option replaced, for
stating that the option is dead. -/
def LLMService.withResponseTimeout (svc : LLMService) (t : Nat) : LLMService :=
  { svc with options := { svc.options with responseTimeout := t } }

/-- Appending the empty string on the right is the identity. -/
theorem string_append_empty (s : String) : s ++ "" = s := by
  cases s with
  | mk data =>
    show String.mk (data ++ []) = String.mk data
    simp

/-- Taking at least the whole length of a string gives the string back. -/
theorem jsSubstringTo_of_length_le (s : String) (n : Nat) (h : s.length ≤ n) :
    jsSubstringTo s n = s := by
  unfold jsSubstringTo
  cases s with
  | mk data =>
    congr 1
    exact List.take_of_length_le h

/-- Natural ceiling division by 4, as the source writes Math.ceil(n / 4):
on a natural numerator it is (n + 3) / 4 in natural division. -/
theorem natCeilDivFour (n : Nat) : (((n + 3) / 4 : Nat) : ℤ) = ⌈(n : ℚ) / 4⌉ := by
  symm
  rw [Int.ceil_eq_iff]
  constructor
  · push_cast
    rw [sub_lt_iff_lt_add, show ((n : ℚ) / 4 + 1) = (n + 4) / 4 by ring,
      lt_div_iff₀ (by norm_num : (0:ℚ) < 4)]
    have h : (((n + 3) / 4 : ℕ) : ℤ) * 4 < n + 4 := by omega
    exact_mod_cast h
  · rw [div_le_iff₀ (by norm_num : (0:ℚ) < 4)]
    have h : (n : ℤ) ≤ ((n + 3) / 4 : ℕ) * 4 := by omega
    exact_mod_cast h

/-- The generated system prompt is never the empty string: it starts with the
fixed template header. -/
theorem generateSystemPrompt_ne_empty (properties : List Property) :
    generateSystemPrompt properties ≠ "" := by
  intro h
  have hlen := congrArg String.length h
  rw [generateSystemPrompt, String.length_append, String.length_append,
    promptHeader, String.length_append, String.length_append] at hlen
  have h0 : ("You are a helpful and knowledgeable rental property assistant. You have access to " : String).length = 82 := by decide
  rw [h0, show ("" : String).length = 0 from rfl] at hlen
  omega

/-- The cache write leaves the loaded properties unchanged. -/
theorem cacheAfter_properties (svc : LLMService) :
    svc.cacheAfter.properties = svc.properties := by
  unfold LLMService.cacheAfter
  split <;> rfl

/-- The cache write leaves the options unchanged. -/
theorem cacheAfter_options (svc : LLMService) :
    svc.cacheAfter.options = svc.options := by
  unfold LLMService.cacheAfter
  split <;> rfl

/-- When properties are loaded, the state answerQuestion leaves behind is
exactly the cache write, whatever the completion did. -/
theorem answerQuestion_fst (svc : LLMService) (q : String) (o : CompletionOutcome)
    (ts : String) (h : svc.properties.length ≠ 0) :
    (svc.answerQuestion q o ts).1 = svc.cacheAfter := by
  unfold LLMService.answerQuestion
  rw [if_neg h]
  cases o with
  | failure m => rfl
  | success content u =>
    cases content with
    | none => rfl
    | some a =>
      by_cases ha : a = "" <;> simp [ha]

/-- When properties are loaded, the completions call observes exactly the
resolved prompt, whatever the completion did. -/
theorem answerQuestion_prompt (svc : LLMService) (q : String) (o : CompletionOutcome)
    (ts : String) (h : svc.properties.length ≠ 0) :
    (svc.answerQuestion q o ts).2.2 = some svc.resolvedPrompt := by
  unfold LLMService.answerQuestion
  rw [if_neg h]
  cases o with
  | failure m => rfl
  | success content u =>
    cases content with
    | none => rfl
    | some a =>
      by_cases ha : a = "" <;> simp [ha]

/-- A failing completion attempt always lands in the catch block: the result
is the fallback object for some error message. -/
theorem answerQuestion_result_of_fails (svc : LLMService) (q : String)
    (o : CompletionOutcome) (ts : String) (hf : o.fails = true) :
    ∃ m, (svc.answerQuestion q o ts).2.1 = llmFailureResult q m ts := by
  unfold LLMService.answerQuestion
  by_cases h0 : svc.properties.length = 0
  · rw [if_pos h0]
    exact ⟨noDataMessage, rfl⟩
  · rw [if_neg h0]
    cases o with
    | failure m => exact ⟨m, rfl⟩
    | success content u =>
      cases content with
      | none => exact ⟨noAnswerMessage, rfl⟩
      | some a =>
        have ha : a = "" := by simpa [CompletionOutcome.fails] using hf
        subst ha
        exact ⟨noAnswerMessage, by simp⟩

/-- The answer field of an answerQuestion result is either the fixed apology
or the trimmed answer text of a non-empty completion content. -/
theorem answerQuestion_answer_shape (svc : LLMService) (q : String)
    (o : CompletionOutcome) (ts : String) :
    (svc.answerQuestion q o ts).2.1.answer = llmApology ∨
    ∃ a u, o = .success (some a) u ∧ a ≠ "" ∧
      (svc.answerQuestion q o ts).2.1.answer = jsTrim a := by
  unfold LLMService.answerQuestion
  by_cases h0 : svc.properties.length = 0
  · left; rw [if_pos h0]; rfl
  · rw [if_neg h0]
    cases o with
    | failure m => left; rfl
    | success content u =>
      cases content with
      | none => left; rfl
      | some a =>
        by_cases ha : a = ""
        · left; simp [ha, llmFailureResult]
        · right; exact ⟨a, u, rfl, ha, by simp [ha]⟩

/-- One trackQuery call appends exactly one entry and adds exactly that
entry's total cost to the running total. -/
theorem trackQuery_append (t : CostTracker) (q : String) (resp : TrackedResponse)
    (rt : Nat) (ts : String) :
    ∃ e, (t.trackQuery q resp rt ts).1.sessions = t.sessions ++ [e] ∧
      (t.trackQuery q resp rt ts).1.totalCost = t.totalCost + e.tokens.totalCost ∧
      (t.trackQuery q resp rt ts).2 = e.tokens :=
  ⟨_, rfl, rfl, rfl⟩

/-- The sum invariant is preserved along any session of tracked queries. -/
theorem trackAll_invariant (es : List QueryEvent) (t : CostTracker)
    (h : t.totalCost = (t.sessions.map fun e => e.tokens.totalCost).sum) :
    (trackAll t es).sessions.length = t.sessions.length + es.length ∧
    (trackAll t es).totalCost =
      ((trackAll t es).sessions.map fun e => e.tokens.totalCost).sum := by
  induction es generalizing t with
  | nil => exact ⟨by simp [trackAll], by simpa [trackAll] using h⟩
  | cons ev evs ih =>
    obtain ⟨entry, hs, hc, -⟩ :=
      trackQuery_append t ev.question ev.response ev.responseTime ev.now
    have h' : (t.trackQuery ev.question ev.response ev.responseTime ev.now).1.totalCost =
        (((t.trackQuery ev.question ev.response ev.responseTime ev.now).1.sessions.map
          fun e => e.tokens.totalCost).sum) := by
      rw [hc, hs, h]
      simp
    have hstep := ih _ h'
    refine ⟨?_, hstep.2⟩
    rw [show trackAll t (ev :: evs) =
      trackAll (t.trackQuery ev.question ev.response ev.responseTime ev.now).1 evs from rfl,
      hstep.1, hs]
    simp
    omega

/-- When both reported counters are zero or absent, trackQuery uses the
heuristic estimates. -/
theorem trackQuery_tokens_est (t : CostTracker) (q : String) (resp : TrackedResponse)
    (rt : Nat) (ts : String)
    (h : (resp.usage.map Usage.prompt_tokens).getD 0 = 0 ∧
      (resp.usage.map Usage.completion_tokens).getD 0 = 0) :
    (t.trackQuery q resp rt ts).2.inputTokens = (q.length + 1000 + 3) / 4 ∧
    (t.trackQuery q resp rt ts).2.outputTokens =
      (((resp.answer.map String.length).getD 0) + 3) / 4 := by
  unfold CostTracker.trackQuery
  simp only [if_pos h]
  exact ⟨rfl, rfl⟩

/-- When at least one reported counter is nonzero, trackQuery uses the
reported counters unmodified. -/
theorem trackQuery_tokens_reported (t : CostTracker) (q : String) (resp : TrackedResponse)
    (rt : Nat) (ts : String)
    (h : ¬ ((resp.usage.map Usage.prompt_tokens).getD 0 = 0 ∧
      (resp.usage.map Usage.completion_tokens).getD 0 = 0)) :
    (t.trackQuery q resp rt ts).2.inputTokens = (resp.usage.map Usage.prompt_tokens).getD 0 ∧
    (t.trackQuery q resp rt ts).2.outputTokens =
      (resp.usage.map Usage.completion_tokens).getD 0 := by
  unfold CostTracker.trackQuery
  simp only [if_neg h]
  exact ⟨rfl, rfl⟩

/-- Claim C2: for all token counts i and o, calculateQueryCost stores exactly
the linear combination i times the fixed input rate 0.0015/1000 plus o times
the fixed output rate 0.002/1000, with no internal rounding (the stored
totalCost is literally inputCost plus outputCost), and pricing zero tokens
gives cost zero. -/
theorem calculateQueryCost_linear (i o : Nat) :
    (CostTracker.calculateQueryCost i o).totalCost =
      i * ((0.0015 : ℚ) / 1000) + o * ((0.002 : ℚ) / 1000) ∧
    (CostTracker.calculateQueryCost i o).totalCost =
      (CostTracker.calculateQueryCost i o).inputCost +
        (CostTracker.calculateQueryCost i o).outputCost ∧
    (CostTracker.calculateQueryCost 0 0).totalCost = 0 := by
  refine ⟨rfl, rfl, ?_⟩
  show (0 : ℕ) * CostTracker.pricing.input + (0 : ℕ) * CostTracker.pricing.output = 0
  norm_num

/-- Claim C3: trackQuery never fails on zero or absent counters (it is a
total function); when both reported counters are zero or absent it estimates
inputTokens as the ceiling of (question length + 1000) / 4 and outputTokens
as the ceiling of (answer length) / 4; for a 40-character question and an
80-character answer this gives exactly 260 and 20; and when at least one
reported counter is nonzero the reported counters are used unmodified. -/
theorem trackQuery_token_fallback (t : CostTracker) (q : String)
    (resp : TrackedResponse) (rt : Nat) (ts : String) :
    ((resp.usage.map Usage.prompt_tokens).getD 0 = 0 ∧
        (resp.usage.map Usage.completion_tokens).getD 0 = 0 →
      (((t.trackQuery q resp rt ts).2.inputTokens : ℤ) = ⌈((q.length : ℚ) + 1000) / 4⌉ ∧
       ((t.trackQuery q resp rt ts).2.outputTokens : ℤ) =
         ⌈(((resp.answer.map String.length).getD 0 : ℚ)) / 4⌉)) ∧
    (q.length = 40 → (resp.answer.map String.length).getD 0 = 80 →
        (resp.usage.map Usage.prompt_tokens).getD 0 = 0 →
        (resp.usage.map Usage.completion_tokens).getD 0 = 0 →
      (t.trackQuery q resp rt ts).2.inputTokens = 260 ∧
      (t.trackQuery q resp rt ts).2.outputTokens = 20) ∧
    (¬ ((resp.usage.map Usage.prompt_tokens).getD 0 = 0 ∧
        (resp.usage.map Usage.completion_tokens).getD 0 = 0) →
      (t.trackQuery q resp rt ts).2.inputTokens = (resp.usage.map Usage.prompt_tokens).getD 0 ∧
      (t.trackQuery q resp rt ts).2.outputTokens =
        (resp.usage.map Usage.completion_tokens).getD 0) := by
  refine ⟨fun h => ?_, fun h40 h80 hp hc => ?_, fun h => trackQuery_tokens_reported t q resp rt ts h⟩
  · obtain ⟨h1, h2⟩ := trackQuery_tokens_est t q resp rt ts h
    constructor
    · rw [h1, natCeilDivFour]
      push_cast
      rfl
    · rw [h2, natCeilDivFour]
  · obtain ⟨h1, h2⟩ := trackQuery_tokens_est t q resp rt ts ⟨hp, hc⟩
    rw [h1, h2, h40, h80]
    norm_num

/-- Claim C4: after any number N of trackQuery calls starting from the
constructor state, the cost log has length exactly N and the running
totalCost is exactly the sum of the totalCost fields of the logged entries;
moreover every single trackQuery call only appends one entry to the log
(never mutating or removing existing entries) and updates the total by
exactly that entry's cost. -/
theorem costTracker_totals_invariant (es : List QueryEvent) :
    (trackAll CostTracker.init es).sessions.length = es.length ∧
    (trackAll CostTracker.init es).totalCost =
      ((trackAll CostTracker.init es).sessions.map fun e => e.tokens.totalCost).sum ∧
    (∀ (t : CostTracker) (ev : QueryEvent),
      ∃ entry,
        (t.trackQuery ev.question ev.response ev.responseTime ev.now).1.sessions =
          t.sessions ++ [entry] ∧
        (t.trackQuery ev.question ev.response ev.responseTime ev.now).1.totalCost =
          t.totalCost + entry.tokens.totalCost) := by
  have h := trackAll_invariant es CostTracker.init (by simp [CostTracker.init])
  refine ⟨by simpa [CostTracker.init] using h.1, h.2, fun t ev => ?_⟩
  obtain ⟨entry, hs, hc, -⟩ :=
    trackQuery_append t ev.question ev.response ev.responseTime ev.now
  exact ⟨entry, hs, hc⟩

/-- Claim C9: the entry logged for a tracked question q carries a preview
equal to the first 50 characters of q followed by the ellipsis marker exactly
when q is longer than 50 characters, and equal to q itself otherwise,
together with the response latency in milliseconds and the timestamp string
taken in the call (the source fills it with a toISOString rendering of the
current date). -/
theorem trackQuery_question_preview (t : CostTracker) (q : String)
    (resp : TrackedResponse) (rt : Nat) (ts : String) :
    ∃ e, (t.trackQuery q resp rt ts).1.sessions = t.sessions ++ [e] ∧
      (50 < q.length → e.question = jsSubstringTo q 50 ++ "...") ∧
      (q.length ≤ 50 → e.question = q) ∧
      e.responseTime = rt ∧ e.timestamp = ts := by
  refine ⟨_, rfl, fun h => ?_, fun h => ?_, rfl, rfl⟩
  · show jsSubstringTo q 50 ++ (if q.length > 50 then "..." else "") = _
    rw [if_pos h]
  · show jsSubstringTo q 50 ++ (if q.length > 50 then "..." else "") = q
    rw [if_neg (by omega), string_append_empty, jsSubstringTo_of_length_le q 50 h]

/-- Claim C10: getSessionStats is total; on an empty log both averages are 0
(no division is attempted), and the division defining each average runs only
under the guard that the log is non-empty; in particular the constructor
state already reports both averages as 0. -/
theorem getSessionStats_zero_guard (t : CostTracker) :
    (t.sessions.length = 0 →
      t.getSessionStats.averageCostPerQuery = 0 ∧
      t.getSessionStats.averageTokensPerQuery = 0) ∧
    (0 < t.sessions.length →
      t.getSessionStats.averageCostPerQuery = t.totalCost / t.sessions.length ∧
      t.getSessionStats.averageTokensPerQuery =
        (t.totalTokens.total : ℚ) / t.sessions.length) ∧
    CostTracker.init.getSessionStats.averageCostPerQuery = 0 ∧
    CostTracker.init.getSessionStats.averageTokensPerQuery = 0 := by
  refine ⟨fun h => ?_, fun h => ?_, ?_, ?_⟩
  · constructor <;> simp [CostTracker.getSessionStats, h]
  · constructor <;> simp [CostTracker.getSessionStats, h]
  · simp [CostTracker.getSessionStats, CostTracker.init]
  · simp [CostTracker.getSessionStats, CostTracker.init]

/-- Full evaluation of answerQuestion when properties are loaded: the state
is the cache write, the prompt observed is the resolved prompt, and the
result is determined by the completion outcome alone. -/
theorem answerQuestion_eq (svc : LLMService) (q : String) (o : CompletionOutcome) (ts : String)
    (h : ¬ svc.properties.length = 0) :
    svc.answerQuestion q o ts =
      (svc.cacheAfter,
       (match o with
        | .failure m => llmFailureResult q m ts
        | .success none _ => llmFailureResult q noAnswerMessage ts
        | .success (some a) u =>
            if a = "" then llmFailureResult q noAnswerMessage ts
            else { question := q, answer := jsTrim a,
                   tokensUsed := some ((u.map Usage.total_tokens).getD 0),
                   usage := some (u.getD { prompt_tokens := 0, completion_tokens := 0, total_tokens := 0 }),
                   model := some svc.options.model,
                   error := none, timestamp := ts }),
       some svc.resolvedPrompt) := by
  unfold LLMService.answerQuestion
  rw [if_neg h]
  cases o with
  | failure m => rfl
  | success content u =>
    cases content with
    | none => rfl
    | some a => by_cases ha : a = "" <;> simp [ha]

/-- Overwriting the responseTimeout option twice keeps only the last
value. -/
theorem withResponseTimeout_absorb (svc : LLMService) (u v : Nat) :
    (svc.withResponseTimeout u).withResponseTimeout v = svc.withResponseTimeout v := rfl

/-- The cache write commutes with changing the responseTimeout option. -/
theorem withResponseTimeout_cacheAfter (svc : LLMService) (u : Nat) :
    (svc.withResponseTimeout u).cacheAfter = svc.cacheAfter.withResponseTimeout u := by
  unfold LLMService.cacheAfter
  cases hb : svc.options.cacheSystemPrompt && !truthy svc.cachedSystemPrompt with
  | true =>
    rw [if_pos (show ((svc.withResponseTimeout u).options.cacheSystemPrompt &&
        !truthy (svc.withResponseTimeout u).cachedSystemPrompt) = true from hb)]
    rfl
  | false =>
    have hb' : ((svc.withResponseTimeout u).options.cacheSystemPrompt &&
        !truthy (svc.withResponseTimeout u).cachedSystemPrompt) = false := hb
    rw [if_neg (by simp [hb'])]
    rfl

/-- Claim C5 (the claimed timeout bound does not exist in the code):
answerQuestion behaves identically under any two values of the
responseTimeout option.  The option is parsed in the chatbot configuration,
handed to the LLMService constructor and stored, but never read again: no
call is ever converted into a failure by a timeout.  The result object and
the observed prompt are equal under both option values, and the final states
differ only in the stored option itself. -/
theorem answerQuestion_ignores_responseTimeout (svc : LLMService) (t1 t2 : Nat)
    (q : String) (o : CompletionOutcome) (ts : String) :
    ((svc.withResponseTimeout t1).answerQuestion q o ts).2 =
      ((svc.withResponseTimeout t2).answerQuestion q o ts).2 ∧
    ((svc.withResponseTimeout t1).answerQuestion q o ts).1 =
      (((svc.withResponseTimeout t2).answerQuestion q o ts).1).withResponseTimeout t1 := by
  by_cases h0 : svc.properties.length = 0
  · have e1 : (svc.withResponseTimeout t1).answerQuestion q o ts =
        (svc.withResponseTimeout t1, llmFailureResult q noDataMessage ts, none) := by
      unfold LLMService.answerQuestion
      rw [if_pos (show (svc.withResponseTimeout t1).properties.length = 0 from h0)]
    have e2 : (svc.withResponseTimeout t2).answerQuestion q o ts =
        (svc.withResponseTimeout t2, llmFailureResult q noDataMessage ts, none) := by
      unfold LLMService.answerQuestion
      rw [if_pos (show (svc.withResponseTimeout t2).properties.length = 0 from h0)]
    rw [e1, e2]
    exact ⟨rfl, rfl⟩
  · rw [answerQuestion_eq (svc.withResponseTimeout t1) q o ts h0,
      answerQuestion_eq (svc.withResponseTimeout t2) q o ts h0]
    refine ⟨rfl, ?_⟩
    show (svc.withResponseTimeout t1).cacheAfter = _
    rw [withResponseTimeout_cacheAfter, withResponseTimeout_cacheAfter,
      withResponseTimeout_absorb]

/-- A present cache entry is truthy exactly when it is not the empty
string. -/
theorem truthy_some_iff (s : String) : truthy (some s) = true ↔ s ≠ "" := by
  simp [truthy]

/-- Claim C7: with caching enabled and properties loaded, consecutive
answerQuestion calls pass byte-identical system prompts to the completions
call: there is a single string p observed by both calls, stored in the cache
after the first call and still stored after the second (write-once,
single-writer), and when the session starts with an empty cache p is the
generated prompt, produced exactly once. -/
theorem answerQuestion_prompt_cache_idempotent (svc : LLMService)
    (q1 q2 : String) (o1 o2 : CompletionOutcome) (ts1 ts2 : String)
    (hcache : svc.options.cacheSystemPrompt = true)
    (hprops : ¬ svc.properties.length = 0) :
    ∃ p,
      (svc.answerQuestion q1 o1 ts1).2.2 = some p ∧
      ((svc.answerQuestion q1 o1 ts1).1.answerQuestion q2 o2 ts2).2.2 = some p ∧
      (svc.answerQuestion q1 o1 ts1).1.cachedSystemPrompt = some p ∧
      ((svc.answerQuestion q1 o1 ts1).1.answerQuestion q2 o2 ts2).1.cachedSystemPrompt = some p ∧
      (svc.cachedSystemPrompt = none → p = generateSystemPrompt svc.properties) := by
  have h1 := answerQuestion_fst svc q1 o1 ts1 hprops
  have hp1 := answerQuestion_prompt svc q1 o1 ts1 hprops
  have hprops2 : ¬ (svc.answerQuestion q1 o1 ts1).1.properties.length = 0 := by
    rw [h1, cacheAfter_properties]; exact hprops
  have h2 := answerQuestion_fst (svc.answerQuestion q1 o1 ts1).1 q2 o2 ts2 hprops2
  have hp2 := answerQuestion_prompt (svc.answerQuestion q1 o1 ts1).1 q2 o2 ts2 hprops2
  cases htr : truthy svc.cachedSystemPrompt with
  | true =>
    obtain ⟨c, hcs, hc⟩ : ∃ c, svc.cachedSystemPrompt = some c ∧ c ≠ "" := by
      cases hs : svc.cachedSystemPrompt with
      | none => rw [hs] at htr; simp [truthy] at htr
      | some c =>
        rw [hs] at htr
        exact ⟨c, rfl, (truthy_some_iff c).mp htr⟩
    have hres : svc.resolvedPrompt = c := by
      unfold LLMService.resolvedPrompt
      rw [hcache, htr, hcs]
      rfl
    have hca : svc.cacheAfter = svc := by
      unfold LLMService.cacheAfter
      rw [hcache, htr]
      rfl
    refine ⟨c, ?_, ?_, ?_, ?_, ?_⟩
    · rw [hp1, hres]
    · rw [h1, hca] at hp2 ⊢
      rw [hp2, hres]
    · rw [h1, hca, hcs]
    · rw [h1, hca] at h2 ⊢
      rw [h2, hca, hcs]
    · intro hnone
      rw [hnone] at hcs
      cases hcs
  | false =>
    have hres : svc.resolvedPrompt = generateSystemPrompt svc.properties := by
      unfold LLMService.resolvedPrompt
      rw [hcache, htr]
      rfl
    have hca : svc.cacheAfter =
        { svc with cachedSystemPrompt := some (generateSystemPrompt svc.properties) } := by
      unfold LLMService.cacheAfter
      rw [hcache, htr, hres]
      rfl
    have hg : truthy (some (generateSystemPrompt svc.properties)) = true :=
      (truthy_some_iff _).mpr (generateSystemPrompt_ne_empty svc.properties)
    have hres2 : (svc.answerQuestion q1 o1 ts1).1.resolvedPrompt =
        generateSystemPrompt svc.properties := by
      rw [h1, hca]
      unfold LLMService.resolvedPrompt
      rw [show ({ svc with cachedSystemPrompt := some (generateSystemPrompt svc.properties) } : LLMService).options.cacheSystemPrompt = true from hcache,
        show truthy ({ svc with cachedSystemPrompt := some (generateSystemPrompt svc.properties) } : LLMService).cachedSystemPrompt = true from hg]
      rfl
    have hca2 : (svc.answerQuestion q1 o1 ts1).1.cacheAfter = (svc.answerQuestion q1 o1 ts1).1 := by
      rw [h1, hca]
      unfold LLMService.cacheAfter
      rw [show ({ svc with cachedSystemPrompt := some (generateSystemPrompt svc.properties) } : LLMService).options.cacheSystemPrompt = true from hcache,
        show truthy ({ svc with cachedSystemPrompt := some (generateSystemPrompt svc.properties) } : LLMService).cachedSystemPrompt = true from hg]
      rfl
    refine ⟨generateSystemPrompt svc.properties, ?_, ?_, ?_, ?_, fun _ => rfl⟩
    · rw [hp1, hres]
    · rw [hp2, hres2]
    · rw [h1, hca]
    · rw [h2, hca2, h1, hca]

/-- Claim C8: a completion call that returns without a transport error but
with absent or empty answer text is treated as a failure: the result is the
fallback object, its error field carries the no-response message and its
answer is the apology, never a success with an empty answer. -/
theorem answerQuestion_empty_answer_failure (svc : LLMService) (q ts : String)
    (content : Option String) (u : Option Usage)
    (hprops : ¬ svc.properties.length = 0)
    (hempty : content = none ∨ content = some "") :
    (svc.answerQuestion q (.success content u) ts).2.1 = llmFailureResult q noAnswerMessage ts ∧
    (svc.answerQuestion q (.success content u) ts).2.1.error = some noAnswerMessage ∧
    (svc.answerQuestion q (.success content u) ts).2.1.answer = llmApology := by
  rcases hempty with h | h <;> subst h <;>
    rw [answerQuestion_eq svc q _ ts hprops] <;> exact ⟨rfl, rfl, rfl⟩

/-- Claim C7 witness: the cache idempotence theorem applied to the concrete
one-property service, with two concrete successful calls. -/
theorem answerQuestion_prompt_cache_idempotent_witness :
    ∃ p,
      (svcW.answerQuestion "What properties do you have available?"
        (.success (some "One lovely beach house!") none) "t1").2.2 = some p ∧
      ((svcW.answerQuestion "What properties do you have available?"
        (.success (some "One lovely beach house!") none) "t1").1.answerQuestion
        "Does it have parking?" (.success (some "Yes!") none) "t2").2.2 = some p ∧
      (svcW.answerQuestion "What properties do you have available?"
        (.success (some "One lovely beach house!") none) "t1").1.cachedSystemPrompt = some p ∧
      ((svcW.answerQuestion "What properties do you have available?"
        (.success (some "One lovely beach house!") none) "t1").1.answerQuestion
        "Does it have parking?" (.success (some "Yes!") none) "t2").1.cachedSystemPrompt = some p ∧
      (svcW.cachedSystemPrompt = none → p = generateSystemPrompt svcW.properties) :=
  answerQuestion_prompt_cache_idempotent svcW
    "What properties do you have available?" "Does it have parking?"
    (.success (some "One lovely beach house!") none) (.success (some "Yes!") none)
    "t1" "t2" rfl (by decide)

/-- Claim C8 witness: the empty-answer theorem applied to the concrete
one-property service and a completion that resolved without content. -/
theorem answerQuestion_empty_answer_failure_witness :
    (svcW.answerQuestion "Any pools?" (.success none none) "t").2.1 =
      llmFailureResult "Any pools?" noAnswerMessage "t" ∧
    (svcW.answerQuestion "Any pools?" (.success none none) "t").2.1.error =
      some noAnswerMessage ∧
    (svcW.answerQuestion "Any pools?" (.success none none) "t").2.1.answer = llmApology :=
  answerQuestion_empty_answer_failure svcW "Any pools?" "t" none none (by decide) (Or.inl rfl)

/-- Full evaluation of askQuestion on an initialized chatbot with cost
tracking enabled. -/
theorem askQuestion_eq_tracking (bot : RentalPropertyChatbot) (q : String)
    (o : CompletionOutcome) (ts : String) (rt : Nat)
    (hinit : bot.isInitialized = true)
    (hct : bot.config.enableCostTracking = true) :
    bot.askQuestion q o ts rt =
      .ok ({ bot with
              questionCount := bot.questionCount + 1,
              llmService := (bot.llmService.answerQuestion q o ts).1,
              costTracker := (bot.costTracker.trackQuery q
                { usage := (bot.llmService.answerQuestion q o ts).2.1.usage,
                  answer := some (bot.llmService.answerQuestion q o ts).2.1.answer } rt ts).1 },
            mkAskResult (bot.llmService.answerQuestion q o ts).2.1 rt (bot.questionCount + 1)
              (some (bot.costTracker.trackQuery q
                { usage := (bot.llmService.answerQuestion q o ts).2.1.usage,
                  answer := some (bot.llmService.answerQuestion q o ts).2.1.answer } rt ts).2)) := by
  unfold RentalPropertyChatbot.askQuestion
  rw [if_neg (by rw [hinit]; simp)]
  dsimp only
  rw [if_pos hct]

/-- Full evaluation of askQuestion on an initialized chatbot with cost
tracking disabled. -/
theorem askQuestion_eq_no_tracking (bot : RentalPropertyChatbot) (q : String)
    (o : CompletionOutcome) (ts : String) (rt : Nat)
    (hinit : bot.isInitialized = true)
    (hct : bot.config.enableCostTracking = false) :
    bot.askQuestion q o ts rt =
      .ok ({ bot with
              questionCount := bot.questionCount + 1,
              llmService := (bot.llmService.answerQuestion q o ts).1 },
            mkAskResult (bot.llmService.answerQuestion q o ts).2.1 rt (bot.questionCount + 1) none) := by
  unfold RentalPropertyChatbot.askQuestion
  rw [if_neg (by rw [hinit]; simp)]
  dsimp only
  rw [if_neg (by simp [hct])]

/-- The guard of askQuestion: an uninitialized chatbot rejects the call
with the fixed message. -/
theorem askQuestion_uninitialized (bot : RentalPropertyChatbot) (q : String)
    (o : CompletionOutcome) (ts : String) (rt : Nat)
    (hinit : bot.isInitialized = false) :
    bot.askQuestion q o ts rt = .error notInitializedMessage := by
  unfold RentalPropertyChatbot.askQuestion
  rw [if_pos (by rw [hinit]; rfl)]

/-- Claim C1, amended: for every question whose completion attempt fails,
askQuestion still resolves, increments the session question counter and
returns a Result whose error field is set; but the cost accounting depends
on the enableCostTracking flag: with tracking disabled the cost log and
totals are untouched and the cost field is null, while with tracking enabled
(the default) the failed query IS cost-tracked — exactly one entry is
appended to the log, the running total grows by that entry's cost, and the
Result's cost field carries that entry, not null. -/
theorem askQuestion_failure_accounting (bot : RentalPropertyChatbot) (q : String)
    (o : CompletionOutcome) (ts : String) (rt : Nat)
    (hinit : bot.isInitialized = true) (hfail : o.fails = true) :
    ∃ bot' res, bot.askQuestion q o ts rt = .ok (bot', res) ∧
      bot'.questionCount = bot.questionCount + 1 ∧
      res.questionNumber = bot.questionCount + 1 ∧
      res.error.isSome = true ∧
      (bot.config.enableCostTracking = false →
        bot'.costTracker = bot.costTracker ∧ res.cost = none) ∧
      (bot.config.enableCostTracking = true →
        res.cost.isSome = true ∧
        ∃ e, bot'.costTracker.sessions = bot.costTracker.sessions ++ [e] ∧
          res.cost = some e.tokens ∧
          bot'.costTracker.totalCost = bot.costTracker.totalCost + e.tokens.totalCost) := by
  obtain ⟨m, hm⟩ := answerQuestion_result_of_fails bot.llmService q o ts hfail
  by_cases hct : bot.config.enableCostTracking
  · rw [askQuestion_eq_tracking bot q o ts rt hinit hct]
    obtain ⟨e, hs, hcost, he⟩ := trackQuery_append bot.costTracker q
      { usage := (bot.llmService.answerQuestion q o ts).2.1.usage,
        answer := some (bot.llmService.answerQuestion q o ts).2.1.answer } rt ts
    refine ⟨_, _, rfl, rfl, rfl, ?_, ?_, ?_⟩
    · show (bot.llmService.answerQuestion q o ts).2.1.error.isSome = true
      rw [hm]
      rfl
    · intro h
      rw [h] at hct
      exact absurd hct (by decide)
    · intro _
      refine ⟨rfl, e, hs, ?_, hcost⟩
      show some (bot.costTracker.trackQuery q
        { usage := (bot.llmService.answerQuestion q o ts).2.1.usage,
          answer := some (bot.llmService.answerQuestion q o ts).2.1.answer } rt ts).2 = some e.tokens
      rw [he]
  · have hctf : bot.config.enableCostTracking = false := by
      cases h : bot.config.enableCostTracking
      · rfl
      · exact absurd h hct
    rw [askQuestion_eq_no_tracking bot q o ts rt hinit hctf]
    refine ⟨_, _, rfl, rfl, rfl, ?_, fun _ => ⟨rfl, rfl⟩, ?_⟩
    · show (bot.llmService.answerQuestion q o ts).2.1.error.isSome = true
      rw [hm]
      rfl
    · intro h
      rw [h] at hctf
      exact absurd hctf (by decide)

/-- Claim C6, amended: askQuestion on an uninitialized chatbot rejects
with the fixed guard message; on an initialized chatbot it always resolves
to a well-formed Result and never propagates an exception, and the answer
string is non-empty in every case except one: when the completion succeeds
with answer text that is non-empty but consists entirely of whitespace, the
returned answer is that text trimmed, which is the empty string. -/
theorem askQuestion_wellformed_amended (bot : RentalPropertyChatbot) (q : String)
    (o : CompletionOutcome) (ts : String) (rt : Nat) :
    (bot.isInitialized = false → bot.askQuestion q o ts rt = .error notInitializedMessage) ∧
    (bot.isInitialized = true → ∃ bot' res, bot.askQuestion q o ts rt = .ok (bot', res) ∧
      (res.answer ≠ "" ∨
        ∃ a u, o = .success (some a) u ∧ a ≠ "" ∧ res.answer = jsTrim a ∧ jsTrim a = "")) := by
  constructor
  · exact fun h => askQuestion_uninitialized bot q o ts rt h
  · intro hinit
    have hshape := answerQuestion_answer_shape bot.llmService q o ts
    by_cases hct : bot.config.enableCostTracking
    · rw [askQuestion_eq_tracking bot q o ts rt hinit hct]
      refine ⟨_, _, rfl, ?_⟩
      rcases hshape with h | ⟨a, u, ho, ha, hans⟩
      · left
        show (bot.llmService.answerQuestion q o ts).2.1.answer ≠ ""
        rw [h]
        decide
      · by_cases htrim : jsTrim a = ""
        · right
          exact ⟨a, u, ho, ha, hans, htrim⟩
        · left
          show (bot.llmService.answerQuestion q o ts).2.1.answer ≠ ""
          rw [hans]
          exact htrim
    · have hctf : bot.config.enableCostTracking = false := by
        cases h : bot.config.enableCostTracking
        · rfl
        · exact absurd h hct
      rw [askQuestion_eq_no_tracking bot q o ts rt hinit hctf]
      refine ⟨_, _, rfl, ?_⟩
      rcases hshape with h | ⟨a, u, ho, ha, hans⟩
      · left
        show (bot.llmService.answerQuestion q o ts).2.1.answer ≠ ""
        rw [h]
        decide
      · by_cases htrim : jsTrim a = ""
        · right
          exact ⟨a, u, ho, ha, hans, htrim⟩
        · left
          show (bot.llmService.answerQuestion q o ts).2.1.answer ≠ ""
          rw [hans]
          exact htrim

/-- Claim C1 witness: the amended failure-accounting theorem applied to the
concrete default-configured chatbot and a concrete timed-out completion. -/
theorem askQuestion_failure_accounting_witness :
    ∃ bot' res, botW.askQuestion "Which property has parking?" (.failure "Request timed out")
        "2024-01-01T00:00:00.000Z" 42 = .ok (bot', res) ∧
      bot'.questionCount = botW.questionCount + 1 ∧
      res.questionNumber = botW.questionCount + 1 ∧
      res.error.isSome = true ∧
      (botW.config.enableCostTracking = false →
        bot'.costTracker = botW.costTracker ∧ res.cost = none) ∧
      (botW.config.enableCostTracking = true →
        res.cost.isSome = true ∧
        ∃ e, bot'.costTracker.sessions = botW.costTracker.sessions ++ [e] ∧
          res.cost = some e.tokens ∧
          bot'.costTracker.totalCost = botW.costTracker.totalCost + e.tokens.totalCost) :=
  askQuestion_failure_accounting botW "Which property has parking?"
    (.failure "Request timed out") "2024-01-01T00:00:00.000Z" 42 rfl rfl

/-- Claim C1 counterexample: on the concrete default-configured chatbot (cost
tracking enabled, empty log) a failing query leaves the cost log at length 1,
not 0, and returns a Result whose cost field is set, not null — refuting the
claim that a failing query never touches the cost log and carries a null
cost. -/
theorem askQuestion_failure_tracks_cost_cex :
    ((botW.askQuestion "Which property is cheapest?" (.failure "network error")
        "2024-01-01T00:00:00.000Z" 12).toOption.map
      (fun r => (r.1.costTracker.sessions.length, r.2.cost.isSome, r.2.error))) =
    some (1, true, some "network error") := by decide

/-- Claim C6 counterexample: on the concrete initialized chatbot, a
completion that succeeds with the one-space answer text passes the
missing-answer guard, and askQuestion resolves without error to a Result
whose answer is the empty string — refuting the claim that every Result
carries a non-empty answer. -/
theorem askQuestion_whitespace_empty_answer_cex :
    ((botW.askQuestion "hi" (.success (some " ")
        (some { prompt_tokens := 650, completion_tokens := 18, total_tokens := 668 })) "t" 5).toOption.map
      (fun r => (r.2.answer, r.2.error.isSome))) = some ("", false) := by decide
